import Mathlib

/-
Shallow embedding of the strata marketplace-ui components:
  - BountyDetail.tsx : AsyncQtyButton validate / action closures, bountyClosed,
    fundsUsed, fundsHaveBeenUsed
  - MintSelect.tsx : TokenSearch onSelect handler
JavaScript numbers are modelled as either NaN or an exact rational; the
JS comparison and truthiness semantics used by the code (NaN comparisons are
false, 0 and NaN and undefined are falsy) are embedded explicitly.
-/

namespace Strata

/-- A JavaScript number as used by the bounty validation code: either NaN
(produced by Number() on non-numeric input) or a numeric value, modelled
exactly as a rational. -/
inductive JSNum where
  | nan : JSNum
  | num : ℚ → JSNum
deriving DecidableEq

/-- JS unary minus: -NaN = NaN, otherwise arithmetic negation. -/
def jneg : JSNum → JSNum
  | .nan => .nan
  | .num a => .num (-a)

/-- JS strict less-than: any comparison involving NaN is false. -/
def jlt : JSNum → JSNum → Bool
  | .num a, .num b => decide (a < b)
  | _, _ => false

/-- JS truthiness of a number: 0 and NaN are falsy, everything else truthy. -/
def numTruthy : JSNum → Bool
  | .nan => false
  | .num a => decide (a ≠ 0)

/-- JS truthiness test `!x` for a possibly-undefined number (as in
`!targetBalance`): true when the value is undefined, 0 or NaN. -/
def jsFalsy : Option JSNum → Bool
  | none => true
  | some v => ! numTruthy v

/-- JS `<` where the left side may be undefined (undefined coerces to NaN,
so the comparison is false). -/
def jsLtOpt : Option JSNum → JSNum → Bool
  | none, _ => false
  | some a, b => jlt a b

/-- The pricing object is used only through its buyWithBaseAmount function;
it is modelled as that function. -/
abbrev Pricing := JSNum → JSNum

/-- The validate closure passed to AsyncQtyButton in BountyDetail
(BountyDetail.tsx lines 209-236), with the captured component state
(isWithdraw, pricing, targetBalance, baseBalance, connected) made explicit.
Returns the blocking message, or none for `return null`. -/
def validateBounty (isWithdraw : Bool) (pricing : Option Pricing)
    (targetBalance baseBalance : Option JSNum) (connected : Bool)
    (quantity : JSNum) : Option String :=
  if isWithdraw then
    match pricing with
    | some buyWithBaseAmount =>
      let actualQuantity := jneg (buyWithBaseAmount (jneg quantity))
      if jsFalsy targetBalance || jsLtOpt targetBalance actualQuantity then
        some "Insufficient funds"
      else if ! connected then
        some "Connect Wallet"
      else
        none
    | none => none
  else
    if jsFalsy baseBalance || jsLtOpt baseBalance quantity then
      some "Insufficient funds"
    else if ! connected then
      some "Connect Wallet"
    else
      none

/-- An invocation of the external SDK, as issued by the action closure:
either sell with a targetAmount or buy with a baseAmount, each carrying the
slippage argument passed. -/
inductive SdkCall where
  | sell (targetAmount : JSNum) (slippage : ℚ)
  | buy (baseAmount : JSNum) (slippage : ℚ)
deriving DecidableEq

/-- The action closure passed to AsyncQtyButton in BountyDetail
(BountyDetail.tsx lines 237-251): `if (isWithdraw && pricing)` issue a sell
with targetAmount -pricing.buyWithBaseAmount(-quantity) and slippage 0;
`else if (!isWithdraw)` issue a buy with baseAmount quantity and slippage 0;
otherwise (withdraw without pricing) no SDK call is made. The SDK handle is
assumed present (the `tokenBondingSdk?.` guard is outside the claims). -/
def bountyAction (isWithdraw : Bool) (pricing : Option Pricing)
    (quantity : JSNum) : Option SdkCall :=
  if isWithdraw then
    match pricing with
    | some buyWithBaseAmount =>
      some (SdkCall.sell (jneg (buyWithBaseAmount (jneg quantity))) 0)
    | none => none
  else
    some (SdkCall.buy quantity 0)

/-- The token bonding record as far as this code inspects it. -/
structure TokenBondingAcc where
  publicKey : String

/-- BountyDetail.tsx line 117: `const bountyClosed = !tokenBonding && !bondingLoading`. -/
def bountyClosed (tokenBonding : Option TokenBondingAcc)
    (bondingLoading : Bool) : Bool :=
  tokenBonding.isNone && ! bondingLoading

/-- The target mint account; supply is the SDK-converted numeric total supply
`toNumber(targetMint.supply, targetMint)`, supplied externally. -/
structure MintAccount where
  supply : ℚ

/-- BountyDetail.tsx lines 106-115: the fundsUsed memo. Defined only when
targetMint, pricing and reserveAmount are all available; then it is the
converted total supply minus the reserve amount. -/
def fundsUsed (targetMint : Option MintAccount) (pricing : Option Pricing)
    (reserveAmount : Option ℚ) : Option ℚ :=
  match targetMint, pricing, reserveAmount with
  | some m, some _, some r => some (m.supply - r)
  | _, _, _ => none

/-- JS truthiness `!!f` for the possibly-undefined fundsUsed value. -/
def qTruthy : Option ℚ → Bool
  | none => false
  | some v => decide (v ≠ 0)

/-- JS `f > 0` for the possibly-undefined fundsUsed value (undefined coerces
to NaN, so the comparison is false). -/
def qGtZero : Option ℚ → Bool
  | none => false
  | some v => decide (0 < v)

/-- BountyDetail.tsx line 116:
`const fundsHaveBeenUsed: boolean = !!fundsUsed && (fundsUsed > 0)`. -/
def fundsHaveBeenUsed (f : Option ℚ) : Bool :=
  qTruthy f && qGtZero f

/-- An on-chain public key as consumed by MintSelect: only its base58
rendering is used. -/
structure MintKey where
  base58 : String
deriving DecidableEq

/-- The token account attached to a search result; its mint field may be
missing. -/
structure TokenAccount where
  mint : Option MintKey

/-- A search result passed to the onSelect handler; its account field may be
missing (`t.account?.mint`). -/
structure SearchResult where
  account : Option TokenAccount

/-- The observable effect of the onSelect handler: the argument the change
callback was invoked with (none = not invoked), and whether the overlay was
closed. -/
structure SelectOutcome where
  changeCalledWith : Option String
  overlayClosed : Bool
deriving DecidableEq

/-- MintSelect.tsx lines 63-69: `const mint = t.account?.mint; if (mint) {
onChange(mint.toBase58()); onClose(); }`. -/
def onSelectMint (t : SearchResult) : SelectOutcome :=
  match t.account.bind (fun a => a.mint) with
  | some m => { changeCalledWith := some m.base58, overlayClosed := true }
  | none => { changeCalledWith := none, overlayClosed := false }

/-- A concrete pricing function, the identity; used only at concrete inputs. -/
def pricingId : Pricing := fun x => x

/-- A concrete pricing function with buyWithBaseAmount(-5) = -7 and
buyWithBaseAmount(NaN) = NaN; used only at concrete inputs. -/
def bwbShift : Pricing
  | .nan => .nan
  | .num a => .num (a - 2)

/-- C1: for every quantity q, in withdraw mode with a pricing object the
action issues the SDK sell call with target amount -buyWithBaseAmount(-q)
and slippage 0, and in contribute mode it issues the SDK buy call with base
amount q and slippage 0. -/
theorem C1_action_dispatch :
    (∀ (bwb : Pricing) (q : JSNum),
      bountyAction true (some bwb) q
        = some (SdkCall.sell (jneg (bwb (jneg q))) 0)) ∧
    (∀ (pr : Option Pricing) (q : JSNum),
      bountyAction false pr q = some (SdkCall.buy q 0)) := by
  exact ⟨fun bwb q => rfl, fun pr q => rfl⟩

/-- C2 counterexample: with target balance 0 (present, not absent), pricing
the identity, quantity 0 and a connected wallet, the computed actualQuantity
is 0; the claim predicts no "Insufficient funds" (balance is not absent and
not strictly below 0), but the code returns "Insufficient funds" because the
JS falsiness test `!targetBalance` fires on the balance 0. -/
theorem C2_counterexample :
    ¬ (validateBounty true (some pricingId) (some (.num 0)) none true (.num 0)
          = some "Insufficient funds"
        ↔ ((some (JSNum.num 0) : Option JSNum) = none
            ∨ jlt (.num 0) (jneg (pricingId (jneg (.num 0)))) = true)) := by
  decide

/-- C2 amended: in withdraw mode with pricing present, validation returns
"Insufficient funds" exactly when the target balance is JS-falsy (absent,
zero, or NaN) or strictly less than actualQuantity = -buyWithBaseAmount(-q);
in particular with target balance 10, buyWithBaseAmount(-5) = -7, quantity 5
and a connected wallet, validation passes. -/
theorem C2_withdraw_insufficient_funds :
    (∀ (bwb : Pricing) (tb bb : Option JSNum) (c : Bool) (q : JSNum),
      validateBounty true (some bwb) tb bb c q = some "Insufficient funds"
        ↔ (jsFalsy tb = true
            ∨ jsLtOpt tb (jneg (bwb (jneg q))) = true)) ∧
    validateBounty true (some bwbShift) (some (.num 10)) none true (.num 5)
      = none := by
  constructor
  · intro bwb tb bb c q
    cases hf : jsFalsy tb <;>
      cases hl : jsLtOpt tb (jneg (bwb (jneg q))) <;>
        cases c <;>
          simp [validateBounty, hf, hl]
  · simp only [validateBounty, bwbShift, jneg, jsFalsy, jsLtOpt, jlt,
      numTruthy]
    norm_num

/-- C3 counterexample: with base balance 0 (present, not absent), quantity 0
and a connected wallet, the claim predicts no "Insufficient funds" (balance
is not absent and 0 < 0 is false), but the code returns "Insufficient funds"
because the JS falsiness test `!baseBalance` fires on the balance 0. -/
theorem C3_counterexample :
    ¬ (validateBounty false none none (some (.num 0)) true (.num 0)
          = some "Insufficient funds"
        ↔ ((some (JSNum.num 0) : Option JSNum) = none
            ∨ jlt (.num 0) (.num 0) = true)) := by
  decide

/-- C3 amended: in contribute mode, validation returns "Insufficient funds"
exactly when the base balance is JS-falsy (absent, zero, or NaN) or strictly
less than the quantity; with base balance 100, quantity 50 and a connected
wallet, validation returns no blocking reason. -/
theorem C3_contribute_insufficient_funds :
    (∀ (pr : Option Pricing) (tb bb : Option JSNum) (c : Bool) (q : JSNum),
      validateBounty false pr tb bb c q = some "Insufficient funds"
        ↔ (jsFalsy bb = true ∨ jsLtOpt bb q = true)) ∧
    (∀ (pr : Option Pricing) (tb : Option JSNum),
      validateBounty false pr tb (some (.num 100)) true (.num 50) = none) := by
  constructor
  · intro pr tb bb c q
    cases hf : jsFalsy bb <;>
      cases hl : jsLtOpt bb q <;>
        cases c <;>
          simp [validateBounty, hf, hl]
  · intro pr tb
    rfl

/-- C4 counterexample: in withdraw mode with no pricing object, a
disconnected wallet, target and base balances 10 and quantity 1, validation
returns null rather than any blocking message, contradicting the claim that
both branches require wallet connection. -/
theorem C4_counterexample :
    ¬ ∃ msg : String,
        validateBounty true none (some (.num 10)) (some (.num 10)) false
          (.num 1) = some msg := by
  rintro ⟨msg, h⟩
  simp [validateBounty] at h

/-- C4 amended: with a disconnected wallet, validation returns a blocking
string message in contribute mode always, and in withdraw mode whenever a
pricing object is available; in withdraw mode without a pricing object it
returns null even when disconnected. -/
theorem C4_disconnected_blocks :
    (∀ (pr : Option Pricing) (tb bb : Option JSNum) (q : JSNum),
      ∃ msg, validateBounty false pr tb bb false q = some msg) ∧
    (∀ (bwb : Pricing) (tb bb : Option JSNum) (q : JSNum),
      ∃ msg, validateBounty true (some bwb) tb bb false q = some msg) ∧
    (∀ (tb bb : Option JSNum) (q : JSNum),
      validateBounty true none tb bb false q = none) := by
  refine ⟨fun pr tb bb q => ?_, fun bwb tb bb q => ?_, fun tb bb q => rfl⟩
  · by_cases h : (jsFalsy bb || jsLtOpt bb q) = true
    · exact ⟨"Insufficient funds", by simp [validateBounty, h]⟩
    · exact ⟨"Connect Wallet", by simp [validateBounty, h]⟩
  · by_cases h : (jsFalsy tb || jsLtOpt tb (jneg (bwb (jneg q)))) = true
    · exact ⟨"Insufficient funds", by simp [validateBounty, h]⟩
    · exact ⟨"Connect Wallet", by simp [validateBounty, h]⟩

/-- C5: evaluation of the code at the failing input. With quantity NaN (the
Number() coercion of any non-numeric input string), a truthy balance and a
connected wallet, validation returns null in the contribute branch, and also
in the withdraw branch when buyWithBaseAmount propagates NaN: NaN is not
rejected, contrary to the claim. -/
theorem C5_nan_passes_validation :
    validateBounty false none none (some (.num 100)) true .nan = none ∧
    validateBounty true (some bwbShift) (some (.num 10)) none true .nan
      = none := by
  exact ⟨rfl, rfl⟩

/-- C6: bountyClosed is true iff the bonding record is absent and loading has
completed; whenever loading is true it is false regardless of the record. -/
theorem C6_bountyClosed_iff :
    (∀ (tb : Option TokenBondingAcc) (loading : Bool),
      bountyClosed tb loading = true ↔ tb = none ∧ loading = false) ∧
    (∀ tb : Option TokenBondingAcc, bountyClosed tb true = false) := by
  constructor
  · intro tb loading
    cases tb <;> cases loading <;> simp [bountyClosed]
  · intro tb
    cases tb <;> simp [bountyClosed]

/-- C7 counterexample: with the target mint present (converted supply 10) and
reserve amount 3 available but the pricing object unavailable, the code
yields undefined, not the claimed supply minus reserve. -/
theorem C7_counterexample :
    ¬ (fundsUsed (some ⟨10⟩) none (some 3) = some (10 - 3)) := by
  simp [fundsUsed]

/-- C7 amended: fundsUsed equals the converted total supply minus the reserve
amount exactly when the target mint, the pricing object and the reserve
amount are all available; it is undefined whenever any of the three is
missing (in particular when pricing is unavailable, even with supply and
reserve present). -/
theorem C7_fundsUsed :
    (∀ (m : MintAccount) (p : Pricing) (r : ℚ),
      fundsUsed (some m) (some p) (some r) = some (m.supply - r)) ∧
    (∀ (p : Option Pricing) (r : Option ℚ), fundsUsed none p r = none) ∧
    (∀ (m : MintAccount) (r : Option ℚ), fundsUsed (some m) none r = none) ∧
    (∀ (m : MintAccount) (p : Pricing),
      fundsUsed (some m) (some p) none = none) := by
  refine ⟨fun m p r => rfl, fun p r => ?_, fun m r => ?_, fun m p => rfl⟩
  · cases p <;> cases r <;> rfl
  · cases r <;> rfl

/-- C8: fundsHaveBeenUsed is true iff fundsUsed is defined and strictly
greater than zero; false when undefined or nonpositive. -/
theorem C8_fundsHaveBeenUsed_iff :
    ∀ f : Option ℚ,
      fundsHaveBeenUsed f = true ↔ ∃ v, f = some v ∧ 0 < v := by
  intro f
  cases f with
  | none => simp [fundsHaveBeenUsed, qTruthy, qGtZero]
  | some v =>
    simp only [fundsHaveBeenUsed, qTruthy, qGtZero, Bool.and_eq_true,
      decide_eq_true_eq, Option.some.injEq]
    constructor
    · rintro ⟨-, h⟩
      exact ⟨v, rfl, h⟩
    · rintro ⟨w, rfl, h⟩
      exact ⟨ne_of_gt h, h⟩

/-- C9: the onSelect handler invokes the change callback with the mint's
base58 string and closes the overlay exactly when the selected result has a
mint field; when the account or its mint is missing, neither happens. -/
theorem C9_onSelect_mint :
    (∀ m : MintKey,
      onSelectMint ⟨some ⟨some m⟩⟩
        = { changeCalledWith := some m.base58, overlayClosed := true }) ∧
    onSelectMint ⟨some ⟨none⟩⟩
      = { changeCalledWith := none, overlayClosed := false } ∧
    onSelectMint ⟨none⟩
      = { changeCalledWith := none, overlayClosed := false } := by
  exact ⟨fun m => rfl, rfl, rfl⟩

/-- C10: in withdraw mode with the pricing object unavailable, validation
returns null for every quantity, every balance, and even with a disconnected
wallet. -/
theorem C10_withdraw_no_pricing_passes :
    ∀ (tb bb : Option JSNum) (c : Bool) (q : JSNum),
      validateBounty true none tb bb c q = none := by
  intro tb bb c q
  rfl

end Strata
